import Mathlib

/-!
# Mini-Games Arcade — verification of the real-time game-loop spec

Shallow embedding of the collision predicates, clock delta-time computation,
entity integration, bullet bounce logic, scheduler state machine, Snake
movement and TicTacToe minimax of the repository, over exact rational
arithmetic (`ℚ` in place of JS doubles, `Int`/`Nat` for counters).

Source files referenced below:
* `src/unnamed/part_001` — Neon Breakout Blitz (`loop`, `resetGame`, `startGame`)
* `src/src/components/games/Game2048.tsx` — FlappyBird (`step`, `intersectsPipe`)
* `src/src/components/games/EmojiMatch.tsx` — BulletDodge (`step`,
  `circleRectCollide`, `circleCircleCollide`)
* `src/src/components/games/AimTrainer.tsx` — TankBattle (`loop`, `shoot`,
  `circleRectCollision`)
* `src/src/components/games/Snake.tsx` — Snake (`moveSnake`)
* `src/unnamed/part_006` — TicTacToe (`calculateWinner`, `findBestMove`)
-/

namespace Arcade

/-! ## Clock delta-time (C1)

Breakout `loop` (part_001 line 141):
`let dt = Math.min(0.05, (ts - lastTimeRef.current) / 1000);`

FlappyBird `step` (Game2048.tsx line 131):
`const dt = Math.min((now - s.lastFrame) / 1000, 0.04);`
-/

/-- Per-frame delta-time of Breakout's `loop` (part_001 line 141):
`min(0.05, (ts - last) / 1000)`. -/
def breakoutDt (ts last : ℚ) : ℚ :=
  min (5/100) ((ts - last) / 1000)

/-- Per-frame delta-time of FlappyBird's `step` (Game2048.tsx line 131):
`min((now - last) / 1000, 0.04)`. -/
def flappyDt (now last : ℚ) : ℚ :=
  min ((now - last) / 1000) (4/100)

/-- The spec's `clamp(v, lo, hi)` = `max(lo, min(v, hi))`, used to state what
the spec says `tick` computes. -/
def specClamp (v lo hi : ℚ) : ℚ :=
  max lo (min v hi)

/-! ## Collision predicates (C4, C6)

TankBattle `circleRectCollision` (AimTrainer.tsx lines 245-252),
BulletDodge `circleRectCollide` (EmojiMatch.tsx lines 108-114),
FlappyBird `intersectsPipe` (Game2048.tsx lines 94-101),
BulletDodge `circleCircleCollide` (EmojiMatch.tsx lines 115-119).
-/

/-- TankBattle's `circleRectCollision` (AimTrainer.tsx lines 245-252):
clamp the circle center to the rectangle, compare squared distance
strictly (`<`) against `r * r`. -/
def circleRectCollision (cx cy r rx ry rw rh : ℚ) : Bool :=
  let testX := max rx (min cx (rx + rw))
  let testY := max ry (min cy (ry + rh))
  let distX := cx - testX
  let distY := cy - testY
  decide (distX * distX + distY * distY < r * r)

/-- BulletDodge's `circleRectCollide` (EmojiMatch.tsx lines 108-114):
`clamp(v, a, b) = max(a, min(b, v))` applied to the center, then squared
distance compared with `<=` against `cr * cr`. -/
def circleRectCollide (cx cy cr rx ry rw rh : ℚ) : Bool :=
  let closestX := max rx (min (rx + rw) cx)
  let closestY := max ry (min (ry + rh) cy)
  let dx := cx - closestX
  let dy := cy - closestY
  decide (dx * dx + dy * dy ≤ cr * cr)

/-- FlappyBird's `intersectsPipe` (Game2048.tsx lines 94-101): clamp the
center to the rect, squared distance compared strictly (`<`) with `r * r`. -/
def intersectsPipe (cx cy r px py pw ph : ℚ) : Bool :=
  let closestX := max px (min cx (px + pw))
  let closestY := max py (min cy (py + ph))
  let dx := cx - closestX
  let dy := cy - closestY
  decide (dx * dx + dy * dy < r * r)

/-- Squared distance from the circle center to its clamp onto the rectangle —
the quantity all three circle-rect predicates compare against `r²`. -/
def closestDist2 (cx cy rx ry rw rh : ℚ) : ℚ :=
  let closestX := max rx (min cx (rx + rw))
  let closestY := max ry (min cy (ry + rh))
  let dx := cx - closestX
  let dy := cy - closestY
  dx * dx + dy * dy

/-- BulletDodge's `circleCircleCollide` (EmojiMatch.tsx lines 115-119):
`dx*dx + dy*dy <= (r1+r2)*(r1+r2)`. -/
def circleCircleCollide (x1 y1 r1 x2 y2 r2 : ℚ) : Bool :=
  let dx := x1 - x2
  let dy := y1 - y2
  let r := r1 + r2
  decide (dx * dx + dy * dy ≤ r * r)

/-! ## BulletDodge entities and simulation step (C2, C7)

EmojiMatch.tsx `step` (lines 139-243), embedded in full on the simulation
state it touches: spawn timers and spawning (gated on `running`,
lines 148-165), bullet integration and range filter (lines 169-176),
power-up drift (lines 179-181), bullet-player collisions with shield
consumption, life loss and the `-30` score penalty (lines 183-217),
power-up pickups with their `+20`/`+30` bonuses (lines 219-237), and the
`running`-gated time score accrual (lines 240-243).

Modelling of the impure inputs, each noted at its definition: values drawn
from `Math.random` are explicit inputs (`spawned`, `patternSpawned`,
`patternPowerUps`); `performance.now()` is the input `now` (read twice by
the source, lines 167 and 230, within the same frame); the per-power-up
drift `Math.sin(now / 600 + pu.id) * 0.2` is the input function `float`.
-/

/-- A BulletDodge bullet (EmojiMatch.tsx line 19, numeric fields). -/
structure DBullet where
  id : Nat
  x : ℚ
  y : ℚ
  vx : ℚ
  vy : ℚ
  r : ℚ
  deriving DecidableEq, Repr

/-- Bullet integration of BulletDodge's `step` (EmojiMatch.tsx lines 171-174):
`b.x += (slowActive ? b.vx * 0.45 : b.vx) * dt` and likewise for `y`. -/
def moveBullet (slowActive : Bool) (dt : ℚ) (b : DBullet) : DBullet :=
  { b with
    x := b.x + (if slowActive then b.vx * (45/100) else b.vx) * dt
    y := b.y + (if slowActive then b.vy * (45/100) else b.vy) * dt }

/-- Out-of-range filter of BulletDodge's `step` (EmojiMatch.tsx line 176) with
`W = 520`, `H = 490`: keep `b.x > -80 && b.x < W + 80 && b.y > -120 && b.y < H + 120`. -/
def bulletInRange (b : DBullet) : Bool :=
  decide (-80 < b.x) && decide (b.x < 520 + 80) &&
  decide (-120 < b.y) && decide (b.y < 490 + 120)

/-- A BulletDodge power-up kind (EmojiMatch.tsx line 20). -/
inductive PuKind where
  | shield
  | slow
  deriving DecidableEq, Repr

/-- A BulletDodge power-up (EmojiMatch.tsx line 20; the source names the
kind field `type`). -/
structure DPowerUp where
  id : Nat
  x : ℚ
  y : ℚ
  kind : PuKind
  r : ℚ
  picked : Bool
  deriving DecidableEq, Repr

/-- BulletDodge simulation state touched by `step`: the `running`/`gameOver`
flags, shield, lives, the spawn timers (ms), the slow-mo deadline, the
player position, the score, and the bullet and power-up lists
(EmojiMatch.tsx lines 27-49). -/
structure DodgeState where
  running : Bool
  gameOver : Bool
  shield : Bool
  lives : Int
  spawnTimer : ℚ
  patternTimer : ℚ
  slowUntil : ℚ
  px : ℚ
  py : ℚ
  score : Int
  bullets : List DBullet
  powerUps : List DPowerUp
  deriving DecidableEq, Repr

/-- Bullet-versus-player test of the collision loop (EmojiMatch.tsx
line 186): `circleCircleCollide(p.x, p.y, PLAYER_R, b.x, b.y, b.r)` with
`PLAYER_R = 14` (line 38). -/
def playerHit (px py : ℚ) (b : DBullet) : Bool :=
  circleCircleCollide px py 14 b.x b.y b.r

/-- Power-up-versus-player test of the pickup loop (EmojiMatch.tsx
line 222): `circleCircleCollide(p.x, p.y, PLAYER_R, pu.x, pu.y, pu.r)`. -/
def powerUpHit (px py : ℚ) (pu : DPowerUp) : Bool :=
  circleCircleCollide px py 14 pu.x pu.y pu.r

/-- The `-30` score penalty of an unshielded hit (EmojiMatch.tsx line 211),
`scoreRef.current = Math.max(0, scoreRef.current - 30)`, applied once per
hit in the frame. -/
def scorePenalty : Nat → Int → Int
  | 0, score => score
  | n + 1, score => scorePenalty n (max 0 (score - 30))

/-- Score bonus of a power-up pickup: `+20` for a shield (EmojiMatch.tsx
line 226), `+30` for slow-time (line 231). -/
def puBonus (pu : DPowerUp) : Int :=
  match pu.kind with
  | .shield => 20
  | .slow => 30

/-- Bullet integration and out-of-range filter of `step` (EmojiMatch.tsx
lines 169-176), performed unconditionally. -/
def dodgeMoveFilter (slowActive : Bool) (dt : ℚ) (bullets : List DBullet) :
    List DBullet :=
  (bullets.map (moveBullet slowActive dt)).filter bulletInRange

/-- Power-up drift of `step` (EmojiMatch.tsx lines 179-181):
`pu.y += Math.sin(performance.now() / 600 + pu.id) * 0.2`; the value of the
sine expression for each id at this frame is the input `float`. -/
def dodgeFloat (float : Nat → ℚ) (pus : List DPowerUp) : List DPowerUp :=
  pus.map (fun pu => { pu with y := pu.y + float pu.id })

/-- Difficulty ramp (EmojiMatch.tsx line 145):
`min(18, floor(score / 120))` (score is never negative in the game). -/
def dodgeDifficulty (score : Int) : Int :=
  min 18 (score / 120)

/-- JavaScript `Math.round` on the rationals relevant here
(`Math.round(x) = floor(x + 0.5)`). -/
def jsRound (q : ℚ) : Int :=
  ⌊q + 1/2⌋

/-- BulletDodge's `step` (EmojiMatch.tsx lines 139-243) on the simulation
state, in source order.

* Spawn timers advance and bullets/power-ups spawn only when `running`
  (the render-time flag, lines 148-165); the randomly-parameterised
  entities the spawn sites would push are the inputs `spawned` (single
  pressure bullet, line 158), `patternSpawned` (pattern burst,
  `spawnBulletPattern` lines 62-98; its delayed aim shots are folded into
  the burst) and `patternPowerUps` (the occasional power-up of
  lines 101-104).
* `slowActive = performance.now() < slowUntil` (line 167); every bullet is
  integrated by `velocity * dt` (×0.45 under slow-mo) and out-of-range
  bullets are filtered, regardless of `running` (lines 169-176); power-ups
  drift (lines 179-181).
* Bullet-player collisions (lines 183-217): every colliding bullet is
  removed; with the render-time `shield` closure set, hits only consume
  the shield (`continue`, lines 188-195); without it each hit queues a
  life decrement (`setLives(prev => prev - 1)`, applied here sequentially,
  with `running`/`gameOver` flipped when the running total reaches 0,
  lines 197-209) and applies the `-30` floor-at-0 penalty (line 211).
  `spawnFlash` only pushes already-`picked` markers that the pickup loop
  skips and the line-237 filter removes within this same call, so it is a
  net no-op on this state; the `best` persistence is outside this state.
* Power-up pickups (lines 219-237): unpicked colliding power-ups are
  marked, granting the shield or the slow-mo deadline `now + 1400` and
  their score bonus, then picked and out-of-range power-ups are filtered.
* Score accrues `round(16 * dt)` only when `running` (lines 240-243). -/
def dodgeStep (spawned patternSpawned : List DBullet)
    (patternPowerUps : List DPowerUp) (float : Nat → ℚ) (now dt : ℚ)
    (s : DodgeState) : DodgeState :=
  let running0 := s.running
  let shield0 := s.shield
  let s :=
    if running0 then
      let spawnTimer := s.spawnTimer + dt * 1000
      let patternTimer := s.patternTimer + dt * 1000
      let diff := dodgeDifficulty s.score
      let spawnInterval := max (420 - diff * 8) 180
      let patternInterval := max (900 - diff * 24) 420
      let (bullets, spawnTimer) : List DBullet × ℚ :=
        if (spawnInterval : ℚ) ≤ spawnTimer then (s.bullets ++ spawned, 0)
        else (s.bullets, spawnTimer)
      let (bullets, powerUps, patternTimer) : List DBullet × List DPowerUp × ℚ :=
        if (patternInterval : ℚ) ≤ patternTimer then
          (bullets ++ patternSpawned, s.powerUps ++ patternPowerUps, 0)
        else (bullets, s.powerUps, patternTimer)
      { s with spawnTimer, patternTimer, bullets, powerUps }
    else s
  let slowActive := decide (now < s.slowUntil)
  let s := { s with bullets := dodgeMoveFilter slowActive dt s.bullets }
  let s := { s with powerUps := dodgeFloat float s.powerUps }
  let hits : Nat := (s.bullets.filter (playerHit s.px s.py)).length
  let s := { s with bullets := s.bullets.filter (fun b => !playerHit s.px s.py b) }
  let s :=
    if shield0 then
      if 0 < hits then { s with shield := false } else s
    else if 0 < hits then
      { s with
        lives := s.lives - (hits : Int)
        score := scorePenalty hits s.score
        running := if s.lives - (hits : Int) ≤ 0 then false else s.running
        gameOver := if s.lives - (hits : Int) ≤ 0 then true else s.gameOver }
    else s
  let picked := s.powerUps.filter (fun pu => !pu.picked && powerUpHit s.px s.py pu)
  let s :=
    { s with
      shield := if picked.any (fun pu => decide (pu.kind = PuKind.shield)) then true
        else s.shield
      slowUntil := if picked.any (fun pu => decide (pu.kind = PuKind.slow)) then
          now + 1400
        else s.slowUntil
      score := s.score + (picked.map puBonus).sum
      powerUps := (s.powerUps.map
          (fun pu => { pu with picked := pu.picked || powerUpHit s.px s.py pu })).filter
        (fun pu => !pu.picked && decide (-40 < pu.x) && decide (pu.x < 520 + 40)) }
  if running0 then { s with score := s.score + jsRound (16 * dt) } else s

/-! ## Breakout ball integration (C7)

part_001 `loop` lines 176-185: an inactive ball is pinned to the paddle,
an active ball integrates `position += velocity * dt`.
-/

/-- A Breakout ball (part_001 line 4). -/
structure BBall where
  x : ℚ
  y : ℚ
  vx : ℚ
  vy : ℚ
  radius : ℚ
  active : Bool
  deriving DecidableEq, Repr

/-- Per-ball update of Breakout's `loop` (part_001 lines 176-185): inactive
balls snap to `(paddle.x + paddle.w / 2, paddle.y - 20)`, active balls move
by `velocity * dt`. -/
def breakoutMoveBall (paddleX paddleY paddleW dt : ℚ) (b : BBall) : BBall :=
  if !b.active then
    { b with x := paddleX + paddleW / 2, y := paddleY - 20 }
  else
    { b with x := b.x + b.vx * dt, y := b.y + b.vy * dt }

/-! ## TankBattle bullets and wall bounces (C3, C8)

AimTrainer.tsx: `shoot` (lines 225-242) creates bullets with
`bounces = 0, maxBounces = 2`; `loop` (lines 458-512) integrates each bullet
and, on wall contact, reflects it while `bounces < maxBounces` and removes
it otherwise.
-/

/-- A TankBattle bullet (AimTrainer.tsx lines 32-41; `owner` and `size` play
no role in the wall-bounce logic and are omitted). -/
structure TBullet where
  x : ℚ
  y : ℚ
  vx : ℚ
  vy : ℚ
  bounces : Nat
  maxBounces : Nat
  deriving DecidableEq, Repr

/-- A TankBattle wall (AimTrainer.tsx lines 43-50). -/
structure TWall where
  x : ℚ
  y : ℚ
  w : ℚ
  h : ℚ
  destructible : Bool
  health : Int
  deriving DecidableEq, Repr

/-- Wall-containment test of the bullet loop (AimTrainer.tsx lines 472-473):
`b.x > wall.x && b.x < wall.x + wall.w && b.y > wall.y && b.y < wall.y + wall.h`. -/
def insideWall (bx by' : ℚ) (w : TWall) : Bool :=
  decide (w.x < bx) && decide (bx < w.x + w.w) &&
  decide (w.y < by') && decide (by' < w.y + w.h)

/-- Reflection of a bullet off a wall (AimTrainer.tsx lines 484-501):
increment `bounces`, negate `vx` when the bullet came from the left or right
(`oldX <= wall.x` / `oldX >= wall.x + wall.w`) and push it `1` outside the
wall, and likewise `vy` for top/bottom. -/
def reflectOffWall (b : TBullet) (w : TWall) (oldX oldY : ℚ) : TBullet :=
  let fromLeft := decide (oldX ≤ w.x)
  let fromRight := decide (w.x + w.w ≤ oldX)
  let fromTop := decide (oldY ≤ w.y)
  let fromBottom := decide (w.y + w.h ≤ oldY)
  let b := { b with bounces := b.bounces + 1 }
  let b :=
    if fromLeft || fromRight then
      { b with vx := -b.vx, x := if fromLeft then w.x - 1 else w.x + w.w + 1 }
    else b
  if fromTop || fromBottom then
    { b with vy := -b.vy, y := if fromTop then w.y - 1 else w.y + w.h + 1 }
  else b

/-- One bullet update of TankBattle's `loop` against one wall
(AimTrainer.tsx lines 460-512): remember the old position, integrate by
`velocity * dt`; on wall contact reflect if `bounces < maxBounces`
(lines 484-504) and remove the bullet (`none`) otherwise (lines 509-511).
(The wall-health side effect of lines 476-481 touches the wall list, never
the bullet.) -/
def bulletMoveStep (dt : ℚ) (b : TBullet) (w : TWall) : Option TBullet :=
  let oldX := b.x
  let oldY := b.y
  let b := { b with x := b.x + b.vx * dt, y := b.y + b.vy * dt }
  if insideWall b.x b.y w then
    if b.bounces < b.maxBounces then some (reflectOffWall b w oldX oldY)
    else none
  else some b

/-- The axis of a wall bounce. -/
inductive Axis where
  | horizontal
  | vertical
  deriving DecidableEq, Repr

/-- The spec's `reflectVelocity`: the velocity-negation performed inline on
wall bounces — `b.vx = -b.vx` on a horizontal-side contact
(AimTrainer.tsx lines 494-497, part_001 lines 187-190) and `b.vy = -b.vy`
on a vertical-side contact (AimTrainer.tsx lines 498-501, part_001
lines 191-194). -/
def reflectVelocity (vx vy : ℚ) (axis : Axis) : ℚ × ℚ :=
  match axis with
  | .horizontal => (-vx, vy)
  | .vertical => (vx, -vy)

/-! ## Breakout loop scheduling (C5)

part_001: `resetGame` (lines 63-78) resets the game state but does not touch
`rafRef` — it leaves any already-scheduled animation frame pending;
`startGame` (lines 80-86) resets, cancels a pending frame and requests a new
one; `loop` (lines 139-311) simulates and renders unconditionally, then
re-requests a frame only while `runningRef && !gameOverRef` (line 310).

The model instruments the loop body with a call counter (`simCalls`) and
keeps the paddle-follow-mouse mutation (lines 166-167, with `w = PADDLE_W =
100` and `GAME_W = 600`) as the representative state change a stray frame
performs.
-/

/-- The scheduling-relevant Breakout state: the `running`/`gameOver` flags,
whether an animation-frame callback is pending (`rafRef`), the paddle and
mouse x positions, and a counter of loop-body executions. -/
structure BreakoutSched where
  running : Bool
  gameOver : Bool
  pending : Bool
  paddleX : ℚ
  mouseX : ℚ
  simCalls : Nat
  deriving DecidableEq, Repr

/-- Breakout's `resetGame` (part_001 lines 63-78): re-centers the paddle
(`x := GAME_W / 2 = 300`), clears `gameOver`, stops `running`; it does NOT
cancel a pending animation frame. -/
def schedResetGame (s : BreakoutSched) : BreakoutSched :=
  { s with paddleX := 300, gameOver := false, running := false }

/-- Breakout's `startGame` (part_001 lines 80-86): `resetGame`, set
`running`, cancel any pending frame and request a fresh one. -/
def schedStartGame (s : BreakoutSched) : BreakoutSched :=
  let s := schedResetGame s
  { s with running := true, pending := true }

/-- The browser reaching an animation-frame point: if a callback is pending,
`loop` runs — it simulates and renders unconditionally (modelled by the
paddle mutation of lines 166-167 and the `simCalls` counter) and then
re-requests a frame only while `running && !gameOver` (line 310). If nothing
is pending, nothing happens. -/
def schedFire (s : BreakoutSched) : BreakoutSched :=
  if s.pending then
    { s with
      paddleX := max 0 (min (600 - 100) (s.mouseX - 100 / 2))
      simCalls := s.simCalls + 1
      pending := s.running && !s.gameOver }
  else s

/-! ## Snake movement (C9)

Snake.tsx `moveSnake` (lines 60-91), `GRID_SIZE = 15`.
-/

/-- A Snake grid cell position (Snake.tsx line 8). -/
structure SPos where
  x : Int
  y : Int
  deriving DecidableEq, Repr

/-- A movement direction (Snake.tsx line 7). -/
inductive SDir where
  | up
  | down
  | left
  | right
  deriving DecidableEq, Repr

/-- New head position (Snake.tsx lines 62-68). -/
def moveHead (d : SDir) (p : SPos) : SPos :=
  match d with
  | .up => { p with y := p.y - 1 }
  | .down => { p with y := p.y + 1 }
  | .left => { p with x := p.x - 1 }
  | .right => { p with x := p.x + 1 }

/-- Outcome of one Snake movement step: the new snake, the game-over flag
set by the step, and the score after the step. -/
structure SnakeResult where
  snake : List SPos
  gameOver : Bool
  score : Int
  deriving DecidableEq, Repr

/-- Snake's `moveSnake` (Snake.tsx lines 60-91): compute the new head from
the old head and the direction; if it leaves the 15×15 grid or coincides
with an existing segment, keep the previous snake, set game over and leave
the score; otherwise prepend the head, and either grow with `+10` score (on
food) or drop the tail. `none` on an empty snake (the component always keeps
at least the head). -/
def moveSnake (d : SDir) (food : SPos) (score : Int) :
    List SPos → Option SnakeResult
  | [] => none
  | p0 :: rest =>
    let prev := p0 :: rest
    let head := moveHead d p0
    if head.x < 0 ∨ 15 ≤ head.x ∨ head.y < 0 ∨ 15 ≤ head.y then
      some ⟨prev, true, score⟩
    else if prev.any (fun seg => seg.x = head.x ∧ seg.y = head.y) then
      some ⟨prev, true, score⟩
    else
      let newSnake := head :: prev
      if head.x = food.x ∧ head.y = food.y then
        some ⟨newSnake, false, score + 10⟩
      else
        some ⟨newSnake.dropLast, false, score⟩

/-! ## TicTacToe minimax (C10)

part_006: `calculateWinner` (lines 130-142) and `findBestMove` /
`minimax` (lines 145-185). `Infinity` / `-Infinity` are modelled by the
sentinels `1000` / `-1000`: every score `minimax` produces lies in
`[-10, 10]`, so the comparisons against the sentinels behave identically.
-/

/-- A TicTacToe mark (part_006 line 5; the `null` case is `Option.none`). -/
inductive TPlayer where
  | X
  | O
  deriving DecidableEq, Repr

/-- A board: nine cells, each empty or marked. -/
abbrev TBoard := List (Option TPlayer)

/-- The eight winning lines (part_006 lines 131-135). -/
def winLines : List (Nat × Nat × Nat) :=
  [(0, 1, 2), (3, 4, 5), (6, 7, 8), (0, 3, 6), (1, 4, 7), (2, 5, 8),
   (0, 4, 8), (2, 4, 6)]

/-- `calculateWinner` (part_006 lines 130-142): the mark of the first
winning line whose three cells hold the same non-empty mark, else `none`. -/
def calculateWinner (b : TBoard) : Option TPlayer :=
  (winLines.filterMap (fun l =>
    match b.getD l.1 none with
    | some p =>
      if b.getD l.2.1 none = some p ∧ b.getD l.2.2 none = some p then some p
      else none
    | none => none)).head?

/-- `b.every(Boolean)` (part_006 line 155): the board is full. -/
def boardFull (b : TBoard) : Bool :=
  b.all (fun c => c.isSome)

/-- One candidate-move evaluation inside `minimax`'s loop (part_006
lines 160-177): skip occupied cells; on an empty cell, recursively score the
board with the mark placed and keep the strictly better `(score, move)`
pair. `recurse` is the recursive call at one less fuel. -/
def minimaxFold (computer opponent : TPlayer)
    (recurse : TBoard → Bool → Int × Int) (b : TBoard) (isMax : Bool)
    (acc : Int × Int) (i : Nat) : Int × Int :=
  if (b.getD i none).isNone then
    let result := recurse (b.set i (some (if isMax then computer else opponent))) (!isMax)
    if isMax then
      if acc.1 < result.1 then (result.1, (i : Int)) else acc
    else
      if result.1 < acc.1 then (result.1, (i : Int)) else acc
  else acc

/-- The starting accumulator of `minimax`'s loop (part_006 lines 157-158):
`bestScore = ∓Infinity` (sentinels `-1000`/`1000`; every score `minimax`
produces lies in `[-10, 10]`, so comparisons behave identically),
`bestMove = -1`. -/
def mmInit (isMax : Bool) : Int × Int :=
  if isMax then (-1000, -1) else (1000, -1)

/-- Invariant of `minimax`'s accumulator once a candidate move has been
recorded: the score is a real game value in `[-10, 10]` and the move is a
legal empty cell of `b`. -/
def mmQ (b : TBoard) (acc : Int × Int) : Prop :=
  -10 ≤ acc.1 ∧ acc.1 ≤ 10 ∧ 0 ≤ acc.2 ∧ acc.2 < 9 ∧
    b.getD acc.2.toNat none = none

/-- `minimax` (part_006 lines 151-181), with explicit fuel (the game tree
has depth at most 9, so fuel 9 at the root never runs out): terminal scores
`10`/`-10`/`0` for computer win / opponent win / full board, else fold the
candidate moves over indices `0..8` starting from the
`(∓Infinity, -1)` accumulator. -/
def minimax (computer opponent : TPlayer) :
    Nat → TBoard → Bool → Int × Int
  | 0, _, _ => (0, -1)
  | fuel + 1, b, isMax =>
    let win := calculateWinner b
    if win = some computer then (10, -1)
    else if win = some opponent then (-10, -1)
    else if boardFull b then (0, -1)
    else
      (List.range 9).foldl
        (minimaxFold computer opponent (minimax computer opponent fuel) b isMax)
        (mmInit isMax)

/-- `findBestMove` (part_006 lines 145-185): center (`4`) on the fully empty
board, else the move component of `minimax` at the root, falling back to the
first empty cell when the move is `-1`. -/
def findBestMove (board : TBoard) (computer : TPlayer) : Int :=
  if board.all (fun c => c = none) then 4
  else
    let opponent : TPlayer := if computer = TPlayer.X then TPlayer.O else TPlayer.X
    let move := (minimax computer opponent 9 board true).2
    if move = -1 then
      match board.findIdx? (fun c => c.isNone) with
      | some i => (i : Int)
      | none => -1
    else move

/-! ## Theorems -/

/-- C1 (counterexample): the per-frame delta-time is NOT
`clamp(rawTimestamp - lastTimestamp, 0, maxDt)` — at `ts = 0`,
`last = 1000` the code's `min(0.05, (ts - last)/1000)` returns `-1`, the
spec's clamp returns `0`. -/
theorem clock_tick_clamp_counterexample :
    breakoutDt 0 1000 = -1 ∧ specClamp ((0 - 1000) / 1000) 0 (5/100) = 0 ∧
    breakoutDt 0 1000 ≠ specClamp ((0 - 1000) / 1000) 0 (5/100) := by
  refine ⟨by norm_num [breakoutDt], by norm_num [specClamp], ?_⟩
  norm_num [breakoutDt, specClamp]

/-- C1 (amended): the delta-time of the canvas game loops is
`min(rawDiff in seconds, maxDt)` with no lower clamp — `maxDt = 0.05` in
Breakout's `loop` and `0.04` in FlappyBird's `step`; it never exceeds
`maxDt`, equals exactly `maxDt` for every raw difference at or above the
maximum, and agrees with the spec's `clamp(·, 0, maxDt)` whenever the raw
timestamps are nondecreasing. -/
theorem clock_tick_clamp_amended (ts last : ℚ) :
    breakoutDt ts last ≤ 5/100 ∧
    flappyDt ts last ≤ 4/100 ∧
    (5/100 ≤ (ts - last) / 1000 → breakoutDt ts last = 5/100) ∧
    (4/100 ≤ (ts - last) / 1000 → flappyDt ts last = 4/100) ∧
    (last ≤ ts → breakoutDt ts last = specClamp ((ts - last) / 1000) 0 (5/100)) ∧
    (last ≤ ts → flappyDt ts last = specClamp ((ts - last) / 1000) 0 (4/100)) := by
  have hnn : ∀ h : last ≤ ts, (0:ℚ) ≤ (ts - last) / 1000 := fun h =>
    div_nonneg (sub_nonneg.mpr h) (by norm_num)
  refine ⟨min_le_left _ _, min_le_right _ _, fun h => min_eq_left h,
    fun h => min_eq_right h, fun h => ?_, fun h => ?_⟩
  · rw [breakoutDt, specClamp, min_comm, max_eq_right]
    exact le_min (hnn h) (by norm_num)
  · rw [flappyDt, specClamp, max_eq_right]
    exact le_min (hnn h) (by norm_num)

/-- C1 (witness): at `ts = 1000`, `last = 0` (raw difference 1 s, above both
maxima) Breakout's loop yields exactly `0.05` and FlappyBird's exactly
`0.04`, and Breakout's agrees with the spec clamp. -/
theorem clock_tick_clamp_amended_witness :
    breakoutDt 1000 0 = 5/100 ∧ flappyDt 1000 0 = 4/100 ∧
    breakoutDt 1000 0 = specClamp ((1000 - 0) / 1000) 0 (5/100) := by
  have h := clock_tick_clamp_amended 1000 0
  exact ⟨h.2.2.1 (by norm_num), h.2.2.2.1 (by norm_num),
    h.2.2.2.2.1 (by norm_num)⟩

/-- C4 (counterexample): the three circle-rect predicates are NOT equal as
functions — on the boundary input `(cx,cy,r) = (0,0,1)`,
`rect = (1,0,1,1)` (closest point at distance exactly `r`) BulletDodge's
`circleRectCollide` (`≤`) returns `true` while TankBattle's
`circleRectCollision` (`<`) returns `false`. -/
theorem circleRect_equal_counterexample :
    circleRectCollide 0 0 1 1 0 1 1 = true ∧
    circleRectCollision 0 0 1 1 0 1 1 = false ∧
    circleRectCollide 0 0 1 1 0 1 1 ≠ circleRectCollision 0 0 1 1 0 1 1 := by
  have h1 : circleRectCollide 0 0 1 1 0 1 1 = true := by
    norm_num [circleRectCollide, min_def, max_def]
  have h2 : circleRectCollision 0 0 1 1 0 1 1 = false := by
    norm_num [circleRectCollision, min_def, max_def]
  exact ⟨h1, h2, by rw [h1, h2]; exact fun hc => Bool.noConfusion hc⟩

/-- C4 (amended): all three predicates clamp the center to the rectangle
and compare the squared distance with `r²`; TankBattle's
`circleRectCollision` and FlappyBird's `intersectsPipe` are equal as
functions (both strict `<`), and BulletDodge's `circleRectCollide` (`≤`)
agrees with them except exactly on inputs whose squared distance equals
`r²`, where it alone returns `true`. -/
theorem circleRect_equal_amended (cx cy r rx ry rw rh : ℚ) :
    circleRectCollision cx cy r rx ry rw rh = intersectsPipe cx cy r rx ry rw rh ∧
    circleRectCollide cx cy r rx ry rw rh =
      (circleRectCollision cx cy r rx ry rw rh ||
        decide (closestDist2 cx cy rx ry rw rh = r * r)) := by
  constructor
  · rfl
  · simp only [circleRectCollide, circleRectCollision, closestDist2,
      min_comm (rx + rw) cx, min_comm (ry + rh) cy]
    rcases lt_trichotomy
        ((cx - max rx (min cx (rx + rw))) * (cx - max rx (min cx (rx + rw))) +
          (cy - max ry (min cy (ry + rh))) * (cy - max ry (min cy (ry + rh))))
        (r * r) with h | h | h
    · simp [le_of_lt h, h, ne_of_lt h]
    · simp [le_of_eq h, h]
    · simp [not_le.mpr h, not_lt.mpr (le_of_lt h), ne_of_gt h]

/-- C6: `circleCircleCollide` returns `true` exactly when the squared
distance between the centers is at most `(r1 + r2)²`; in particular two
radius-10 circles at `(0,0)` and `(15,0)` collide, and at `(0,0)` and
`(25,0)` do not. -/
theorem circleCircle_intersect_correct (x1 y1 r1 x2 y2 r2 : ℚ) :
    (circleCircleCollide x1 y1 r1 x2 y2 r2 = true ↔
      (x1 - x2) ^ 2 + (y1 - y2) ^ 2 ≤ (r1 + r2) ^ 2) ∧
    circleCircleCollide 0 0 10 15 0 10 = true ∧
    circleCircleCollide 0 0 10 25 0 10 = false := by
  refine ⟨?_, by norm_num [circleCircleCollide], by norm_num [circleCircleCollide]⟩
  simp [circleCircleCollide, sq]

/-- C7: the simulation step moves every active entity by
`position += velocity * dt` — BulletDodge's bullet integration (with
slow-mo off) adds exactly `velocity * dt` leaving the velocity unchanged,
Breakout's `loop` does the same for every active ball, and the scenario
entity at `(100,100)` with velocity `(50,0)` lands on `(105,100)` after
`advance(0.1)`. -/
theorem advance_integrates_velocity :
    (∀ (dt : ℚ) (b : DBullet),
      (moveBullet false dt b).x = b.x + b.vx * dt ∧
      (moveBullet false dt b).y = b.y + b.vy * dt ∧
      (moveBullet false dt b).vx = b.vx ∧
      (moveBullet false dt b).vy = b.vy) ∧
    (∀ (px py pw dt : ℚ) (b : BBall), b.active = true →
      (breakoutMoveBall px py pw dt b).x = b.x + b.vx * dt ∧
      (breakoutMoveBall px py pw dt b).y = b.y + b.vy * dt) ∧
    (moveBullet false (1/10) ⟨0, 100, 100, 50, 0, 8⟩).x = 105 ∧
    (moveBullet false (1/10) ⟨0, 100, 100, 50, 0, 8⟩).y = 100 := by
  refine ⟨fun dt b => ⟨rfl, rfl, rfl, rfl⟩, fun px py pw dt b hb => ?_,
    by norm_num [moveBullet], by norm_num [moveBullet]⟩
  simp [breakoutMoveBall, hb]

/-- C7 (witness): an active Breakout ball at `(100,100)` with velocity
`(50,0)` is at `(105,100)` after a `0.1`-second step. -/
theorem advance_integrates_velocity_witness :
    (breakoutMoveBall 300 450 100 (1/10) ⟨100, 100, 50, 0, 6, true⟩).x = 105 ∧
    (breakoutMoveBall 300 450 100 (1/10) ⟨100, 100, 50, 0, 6, true⟩).y = 100 := by
  have h := advance_integrates_velocity.2.1 300 450 100 (1/10)
    ⟨100, 100, 50, 0, 6, true⟩ rfl
  refine ⟨h.1.trans (by norm_num), h.2.trans (by norm_num)⟩

/-- C8: `reflectVelocity` (the wall-bounce velocity negation the games
perform inline) is an involution — applying it twice on the same axis
returns the original velocity — and on a pure left-side wall contact
TankBattle's `reflectOffWall` changes the velocity exactly by
`reflectVelocity · · horizontal`. -/
theorem reflectVelocity_involution :
    (∀ (vx vy : ℚ) (a : Axis),
      reflectVelocity (reflectVelocity vx vy a).1 (reflectVelocity vx vy a).2 a =
        (vx, vy)) ∧
    (∀ (b : TBullet) (w : TWall) (oldX oldY : ℚ),
      oldX ≤ w.x → w.y < oldY → oldY < w.y + w.h →
      ((reflectOffWall b w oldX oldY).vx, (reflectOffWall b w oldX oldY).vy) =
        reflectVelocity b.vx b.vy Axis.horizontal) := by
  constructor
  · rintro vx vy (_ | _) <;> simp [reflectVelocity]
  · intro b w oldX oldY hL hT hB
    simp [reflectOffWall, reflectVelocity, hL, not_le.mpr hT, not_le.mpr hB]

/-- C8 (witness): a bullet with velocity `(100, 30)` hitting a wall from the
left gets velocity `(-100, 30)`, and reflecting `(100, 30)` twice
horizontally gives back `(100, 30)`. -/
theorem reflectVelocity_involution_witness :
    ((reflectOffWall ⟨110, 100, 100, 30, 0, 2⟩ ⟨105, 90, 20, 20, false, 999⟩ 10 100).vx,
      (reflectOffWall ⟨110, 100, 100, 30, 0, 2⟩ ⟨105, 90, 20, 20, false, 999⟩ 10 100).vy) =
        reflectVelocity 100 30 Axis.horizontal ∧
    reflectVelocity (reflectVelocity 100 30 Axis.horizontal).1
      (reflectVelocity 100 30 Axis.horizontal).2 Axis.horizontal = (100, 30) := by
  exact ⟨reflectVelocity_involution.2 ⟨110, 100, 100, 30, 0, 2⟩
      ⟨105, 90, 20, 20, false, 999⟩ 10 100 (by norm_num) (by norm_num) (by norm_num),
    reflectVelocity_involution.1 100 30 Axis.horizontal⟩

/-- Reflecting a bullet off a wall increments its bounce counter by exactly
one (AimTrainer.tsx line 485). -/
theorem reflectOffWall_bounces (b : TBullet) (w : TWall) (oldX oldY : ℚ) :
    (reflectOffWall b w oldX oldY).bounces = b.bounces + 1 := by
  unfold reflectOffWall
  dsimp only
  split <;> split <;> rfl

/-- C2 (counterexample): calling BulletDodge's `step` while the game is not
running (here: after game over) is NOT a no-op — a bullet at `(100,100)`
with velocity `(50,0)`, far from the player, has moved to `(105,100)` after
the call. -/
theorem advance_noop_counterexample :
    (dodgeStep [] [] [] (fun _ => 0) 1000 (1/10)
        { running := false, gameOver := true, shield := false, lives := 0,
          spawnTimer := 0, patternTimer := 0, slowUntil := 0, px := 260,
          py := 410, score := 50, bullets := [⟨1, 100, 100, 50, 0, 8⟩],
          powerUps := [] }).bullets = [⟨1, 105, 100, 50, 0, 8⟩] ∧
    dodgeStep [] [] [] (fun _ => 0) 1000 (1/10)
        { running := false, gameOver := true, shield := false, lives := 0,
          spawnTimer := 0, patternTimer := 0, slowUntil := 0, px := 260,
          py := 410, score := 50, bullets := [⟨1, 100, 100, 50, 0, 8⟩],
          powerUps := [] } ≠
      { running := false, gameOver := true, shield := false, lives := 0,
        spawnTimer := 0, patternTimer := 0, slowUntil := 0, px := 260,
        py := 410, score := 50, bullets := [⟨1, 100, 100, 50, 0, 8⟩],
        powerUps := [] } := by
  have h1 : (dodgeStep [] [] [] (fun _ => 0) 1000 (1/10)
      { running := false, gameOver := true, shield := false, lives := 0,
        spawnTimer := 0, patternTimer := 0, slowUntil := 0, px := 260,
        py := 410, score := 50, bullets := [⟨1, 100, 100, 50, 0, 8⟩],
        powerUps := [] }).bullets = [⟨1, 105, 100, 50, 0, 8⟩] := by
    norm_num [dodgeStep, dodgeMoveFilter, dodgeFloat, moveBullet,
      bulletInRange, playerHit, circleCircleCollide]
  refine ⟨h1, fun hc => ?_⟩
  have hb := congrArg DodgeState.bullets hc
  rw [h1] at hb
  simp only [List.cons.injEq, DBullet.mk.injEq] at hb
  norm_num at hb

/-- C2 (amended): BulletDodge's `step` is not gated on the game state — when
invoked while not running (in particular after game over) it performs no
spawning, leaves the spawn timers alone and accrues no per-frame score,
but it still integrates every bullet by `velocity * dt` and filters the
out-of-range ones (positions change), removes every bullet that now
overlaps the player — consuming the shield, or else decrementing lives per
hit (re-setting `gameOver` when they reach 0) and applying the `-30`
floor-at-0 penalty per hit — and still grants the bonuses of power-up
pickups; the only guard against stray frames is that the loop does not
reschedule itself while not running. -/
theorem advance_noop_amended (spawned patternSpawned : List DBullet)
    (patternPowerUps : List DPowerUp) (float : Nat → ℚ) (now dt : ℚ)
    (s : DodgeState) (h : s.running = false) :
    (dodgeStep spawned patternSpawned patternPowerUps float now dt s).bullets =
      (dodgeMoveFilter (decide (now < s.slowUntil)) dt s.bullets).filter
        (fun b => !playerHit s.px s.py b) ∧
    (dodgeStep spawned patternSpawned patternPowerUps float now dt s).spawnTimer =
      s.spawnTimer ∧
    (dodgeStep spawned patternSpawned patternPowerUps float now dt s).patternTimer =
      s.patternTimer ∧
    (dodgeStep spawned patternSpawned patternPowerUps float now dt s).running =
      false ∧
    (dodgeStep spawned patternSpawned patternPowerUps float now dt s).lives =
      (if s.shield then s.lives
       else s.lives -
        (((dodgeMoveFilter (decide (now < s.slowUntil)) dt s.bullets).filter
          (playerHit s.px s.py)).length : Int)) ∧
    (dodgeStep spawned patternSpawned patternPowerUps float now dt s).gameOver =
      (if s.shield = false ∧
          0 < ((dodgeMoveFilter (decide (now < s.slowUntil)) dt s.bullets).filter
            (playerHit s.px s.py)).length ∧
          s.lives -
            (((dodgeMoveFilter (decide (now < s.slowUntil)) dt s.bullets).filter
              (playerHit s.px s.py)).length : Int) ≤ 0 then true
       else s.gameOver) ∧
    (dodgeStep spawned patternSpawned patternPowerUps float now dt s).score =
      (if s.shield then s.score
       else scorePenalty
        ((dodgeMoveFilter (decide (now < s.slowUntil)) dt s.bullets).filter
          (playerHit s.px s.py)).length s.score) +
      (((dodgeFloat float s.powerUps).filter
        (fun pu => !pu.picked && powerUpHit s.px s.py pu)).map puBonus).sum := by
  simp only [dodgeStep, h, Bool.false_eq_true, if_false]
  set n := ((dodgeMoveFilter (decide (now < s.slowUntil)) dt s.bullets).filter
    (playerHit s.px s.py)).length with hn
  by_cases hs : s.shield = true
  · by_cases hh : 0 < n
    · simp [hs, hh]
    · have hn0 : n = 0 := by omega
      simp [hs, hh, hn0, scorePenalty]
  · have hs' : s.shield = false := by simpa using hs
    by_cases hh : 0 < n
    · by_cases hl : s.lives - (n : Int) ≤ 0
      · simp [hs', hh, hl]
      · simp [hs', hh, hl]
    · have hn0 : n = 0 := by omega
      simp [hs', hh, hn0, scorePenalty]

/-- C2 (witness): game stopped (`running = false`), a bullet one step away
from the player and an overlapping shield power-up — the step keeps the
spawn timer, removes the colliding bullet, decrements lives 3 → 2, and
moves the score 50 → max(0, 50−30) + 20 = 40. -/
theorem advance_noop_amended_witness :
    (dodgeStep [] [] [] (fun _ => 0) 1000 (1/10)
        { running := false, gameOver := false, shield := false, lives := 3,
          spawnTimer := 7, patternTimer := 9, slowUntil := 0, px := 260,
          py := 410, score := 50, bullets := [⟨1, 250, 410, 100, 0, 8⟩],
          powerUps := [⟨2, 260, 410, PuKind.shield, 12, false⟩] }).spawnTimer = 7 ∧
    (dodgeStep [] [] [] (fun _ => 0) 1000 (1/10)
        { running := false, gameOver := false, shield := false, lives := 3,
          spawnTimer := 7, patternTimer := 9, slowUntil := 0, px := 260,
          py := 410, score := 50, bullets := [⟨1, 250, 410, 100, 0, 8⟩],
          powerUps := [⟨2, 260, 410, PuKind.shield, 12, false⟩] }).bullets = [] ∧
    (dodgeStep [] [] [] (fun _ => 0) 1000 (1/10)
        { running := false, gameOver := false, shield := false, lives := 3,
          spawnTimer := 7, patternTimer := 9, slowUntil := 0, px := 260,
          py := 410, score := 50, bullets := [⟨1, 250, 410, 100, 0, 8⟩],
          powerUps := [⟨2, 260, 410, PuKind.shield, 12, false⟩] }).lives = 2 ∧
    (dodgeStep [] [] [] (fun _ => 0) 1000 (1/10)
        { running := false, gameOver := false, shield := false, lives := 3,
          spawnTimer := 7, patternTimer := 9, slowUntil := 0, px := 260,
          py := 410, score := 50, bullets := [⟨1, 250, 410, 100, 0, 8⟩],
          powerUps := [⟨2, 260, 410, PuKind.shield, 12, false⟩] }).score = 40 := by
  have h := advance_noop_amended [] [] [] (fun _ => 0) 1000 (1/10)
    { running := false, gameOver := false, shield := false, lives := 3,
      spawnTimer := 7, patternTimer := 9, slowUntil := 0, px := 260,
      py := 410, score := 50, bullets := [⟨1, 250, 410, 100, 0, 8⟩],
      powerUps := [⟨2, 260, 410, PuKind.shield, 12, false⟩] } rfl
  refine ⟨h.2.1, h.1.trans ?_, (h.2.2.2.2.1).trans ?_, (h.2.2.2.2.2.2).trans ?_⟩
  · norm_num [dodgeMoveFilter, moveBullet, bulletInRange, playerHit,
      circleCircleCollide]
  · norm_num [dodgeMoveFilter, moveBullet, bulletInRange, playerHit,
      circleCircleCollide]
  · norm_num [dodgeMoveFilter, dodgeFloat, moveBullet, bulletInRange,
      playerHit, powerUpHit, circleCircleCollide, scorePenalty, puBonus]

/-- C3: a bullet's bounce counter never exceeds `maxBounces`; on a wall
contact a bullet with bounces left is reflected (kept, counter
incremented) and one without is removed; and a concrete `maxBounces = 2`
bullet (as created by `shoot`) is reflected on its first wall contact
(velocity `(100,0)` becomes `(-100,0)`), reflected again on its second
(back to `(100,0)`), and removed on its third. -/
theorem bullet_bounces_twice_then_removed :
    (∀ (dt : ℚ) (b : TBullet) (w : TWall) (b' : TBullet),
      b.bounces ≤ b.maxBounces → bulletMoveStep dt b w = some b' →
      b'.bounces ≤ b.maxBounces) ∧
    (∀ (dt : ℚ) (b : TBullet) (w : TWall),
      insideWall (b.x + b.vx * dt) (b.y + b.vy * dt) w = true →
      (b.bounces < b.maxBounces →
        ∃ b', bulletMoveStep dt b w = some b' ∧ b'.bounces = b.bounces + 1) ∧
      (b.maxBounces ≤ b.bounces → bulletMoveStep dt b w = none)) ∧
    bulletMoveStep 1 ⟨10, 100, 100, 0, 0, 2⟩ ⟨105, 90, 20, 20, false, 999⟩ =
      some ⟨104, 100, -100, 0, 1, 2⟩ ∧
    bulletMoveStep 1 ⟨104, 100, -100, 0, 1, 2⟩ ⟨-20, 90, 25, 20, false, 999⟩ =
      some ⟨6, 100, 100, 0, 2, 2⟩ ∧
    bulletMoveStep 1 ⟨6, 100, 100, 0, 2, 2⟩ ⟨105, 90, 20, 20, false, 999⟩ =
      none := by
  refine ⟨?_, ?_, ?_, ?_, ?_⟩
  · intro dt b w b' hle hstep
    unfold bulletMoveStep at hstep
    dsimp only at hstep
    split at hstep
    · split at hstep
      · rename_i hlt
        cases hstep
        rw [reflectOffWall_bounces]
        dsimp only at hlt ⊢
        omega
      · exact absurd hstep (by simp)
    · cases hstep
      exact hle
  · intro dt b w hin
    constructor
    · intro hlt
      refine ⟨reflectOffWall
          ⟨b.x + b.vx * dt, b.y + b.vy * dt, b.vx, b.vy, b.bounces, b.maxBounces⟩
          w b.x b.y, ?_, reflectOffWall_bounces _ _ _ _⟩
      simp [bulletMoveStep, hin, hlt]
    · intro hge
      simp [bulletMoveStep, hin, Nat.not_lt.mpr hge]
  · norm_num [bulletMoveStep, insideWall, reflectOffWall]
  · norm_num [bulletMoveStep, insideWall, reflectOffWall]
  · norm_num [bulletMoveStep, insideWall]

/-- C3 (witness): the single-contact facts applied to the concrete first and
third contacts of the bounce trace. -/
theorem bullet_bounces_twice_then_removed_witness :
    (∃ b', bulletMoveStep 1 ⟨10, 100, 100, 0, 0, 2⟩ ⟨105, 90, 20, 20, false, 999⟩ =
        some b' ∧ b'.bounces = 0 + 1) ∧
    bulletMoveStep 1 ⟨6, 100, 100, 0, 2, 2⟩ ⟨105, 90, 20, 20, false, 999⟩ = none := by
  have h1 := (bullet_bounces_twice_then_removed.2.1 1 ⟨10, 100, 100, 0, 0, 2⟩
    ⟨105, 90, 20, 20, false, 999⟩ (by norm_num [insideWall])).1 (by norm_num)
  have h2 := (bullet_bounces_twice_then_removed.2.1 1 ⟨6, 100, 100, 0, 2, 2⟩
    ⟨105, 90, 20, 20, false, 999⟩ (by norm_num [insideWall])).2 (by norm_num)
  exact ⟨h1, h2⟩

/-- C5 (counterexample): after Breakout's `resetGame` returns, a further
simulation-and-render call CAN occur — `resetGame` leaves the scheduled
animation frame pending, and firing it executes the loop body once
(`simCalls` goes from 0 to 1). -/
theorem stop_halts_counterexample :
    (schedFire (schedResetGame ⟨true, false, true, 300, 100, 0⟩)).simCalls = 1 ∧
    (schedResetGame ⟨true, false, true, 300, 100, 0⟩).simCalls = 0 ∧
    schedFire (schedResetGame ⟨true, false, true, 300, 100, 0⟩) ≠
      schedResetGame ⟨true, false, true, 300, 100, 0⟩ := by
  refine ⟨rfl, rfl, fun hc => ?_⟩
  have h := congrArg BreakoutSched.simCalls hc
  simp [schedFire, schedResetGame] at h

/-- C5 (amended): Breakout's `resetGame` is idempotent and does not cancel
the pending animation frame: after it returns, at most ONE further loop
invocation (simulation + render) can occur — if no frame is pending nothing
runs, a pending frame runs the loop body once without rescheduling, and
every later frame point is a no-op until `startGame` schedules anew. -/
theorem stop_halts_amended (s : BreakoutSched) :
    schedResetGame (schedResetGame s) = schedResetGame s ∧
    ((schedResetGame s).pending = false → schedFire (schedResetGame s) = schedResetGame s) ∧
    (schedFire (schedResetGame s)).pending = false ∧
    schedFire (schedFire (schedResetGame s)) = schedFire (schedResetGame s) ∧
    (schedFire (schedFire (schedResetGame s))).simCalls ≤ s.simCalls + 1 ∧
    (schedStartGame s).pending = true := by
  cases hp : s.pending <;>
    simp [schedResetGame, schedFire, schedStartGame, hp]

/-- C5 (witness): on an already-stopped state with nothing pending, firing a
frame point after `resetGame` changes nothing, and two frame points after a
reset perform at most one simulation call. -/
theorem stop_halts_amended_witness :
    schedFire (schedResetGame ⟨false, false, false, 300, 100, 0⟩) =
      schedResetGame ⟨false, false, false, 300, 100, 0⟩ ∧
    (schedFire (schedFire (schedResetGame ⟨false, false, false, 300, 100, 0⟩))).simCalls ≤ 1 := by
  have h := stop_halts_amended ⟨false, false, false, 300, 100, 0⟩
  exact ⟨h.2.1 rfl, h.2.2.2.2.1⟩

/-- C9: when the new Snake head leaves the 15×15 grid or coincides with an
existing body segment, `moveSnake` returns the previous snake unchanged,
sets the game-over flag, and leaves the score unchanged. -/
theorem snake_blocked_step (d : SDir) (food : SPos) (score : Int) (p0 : SPos)
    (rest : List SPos)
    (h : (moveHead d p0).x < 0 ∨ 15 ≤ (moveHead d p0).x ∨
      (moveHead d p0).y < 0 ∨ 15 ≤ (moveHead d p0).y ∨
      (p0 :: rest).any
        (fun seg => seg.x = (moveHead d p0).x ∧ seg.y = (moveHead d p0).y) = true) :
    moveSnake d food score (p0 :: rest) = some ⟨p0 :: rest, true, score⟩ := by
  by_cases hb : (moveHead d p0).x < 0 ∨ 15 ≤ (moveHead d p0).x ∨
      (moveHead d p0).y < 0 ∨ 15 ≤ (moveHead d p0).y
  · simp only [moveSnake]
    rw [if_pos hb]
  · have hc : (p0 :: rest).any
        (fun seg => seg.x = (moveHead d p0).x ∧ seg.y = (moveHead d p0).y) = true := by
      tauto
    simp only [moveSnake]
    rw [if_neg hb, if_pos hc]

/-- C9 (witness): a one-segment snake at `(14,7)` moving right exits the
grid — the step keeps the snake, sets game over, keeps score 30. -/
theorem snake_blocked_step_witness :
    moveSnake SDir.right ⟨5, 5⟩ 30 [⟨14, 7⟩] = some ⟨[⟨14, 7⟩], true, 30⟩ := by
  exact snake_blocked_step SDir.right ⟨5, 5⟩ 30 ⟨14, 7⟩ []
    (Or.inr (Or.inl (by norm_num [moveHead])))

/-- One step of `minimax`'s candidate fold preserves the accumulator
invariant, and on an empty cell it moves the sentinel start accumulator
into the invariant. -/
theorem minimaxFold_step (c o : TPlayer) (recurse : TBoard → Bool → Int × Int)
    (b : TBoard) (isMax : Bool)
    (hrec : ∀ (i : Nat) (p : TPlayer) (m : Bool),
      -10 ≤ (recurse (b.set i (some p)) m).1 ∧
        (recurse (b.set i (some p)) m).1 ≤ 10)
    (acc : Int × Int) (i : Nat) (hi : i < 9) :
    (minimaxFold c o recurse b isMax acc i = acc ∨
      mmQ b (minimaxFold c o recurse b isMax acc i)) ∧
    (acc = mmInit isMax → (b.getD i none).isNone = true →
      mmQ b (minimaxFold c o recurse b isMax acc i)) := by
  unfold minimaxFold
  by_cases hemp : (b.getD i none).isNone = true
  · rw [if_pos hemp]
    set r := recurse (b.set i (some (if isMax then c else o))) (!isMax) with hrdef
    have hr := hrec i (if isMax then c else o) (!isMax)
    rw [← hrdef] at hr
    have hQnew : mmQ b (r.1, (i : Int)) := by
      unfold mmQ
      dsimp only
      refine ⟨hr.1, hr.2, by positivity, by exact_mod_cast hi, ?_⟩
      rw [Int.toNat_natCast]
      exact Option.isNone_iff_eq_none.mp hemp
    cases isMax
    · rw [if_neg (by simp)]
      by_cases hlt : r.1 < acc.1
      · rw [if_pos hlt]
        exact ⟨Or.inr hQnew, fun _ _ => hQnew⟩
      · rw [if_neg hlt]
        refine ⟨Or.inl rfl, fun hinit _ => ?_⟩
        rw [hinit] at hlt
        exact absurd (by simpa [mmInit] using lt_of_le_of_lt hr.2 (by norm_num)) hlt
    · rw [if_pos rfl]
      by_cases hlt : acc.1 < r.1
      · rw [if_pos hlt]
        exact ⟨Or.inr hQnew, fun _ _ => hQnew⟩
      · rw [if_neg hlt]
        refine ⟨Or.inl rfl, fun hinit _ => ?_⟩
        rw [hinit] at hlt
        exact absurd (by simpa [mmInit] using lt_of_lt_of_le (by norm_num) hr.1) hlt
  · rw [if_neg hemp]
    exact ⟨Or.inl rfl, fun _ hemp' => absurd hemp' hemp⟩

/-- Folding `minimax`'s candidate evaluation over any list of legal indices
lands in the accumulator invariant, provided it either starts there or the
list contains at least one empty cell. -/
theorem minimaxFold_foldl (c o : TPlayer) (recurse : TBoard → Bool → Int × Int)
    (b : TBoard) (isMax : Bool)
    (hrec : ∀ (i : Nat) (p : TPlayer) (m : Bool),
      -10 ≤ (recurse (b.set i (some p)) m).1 ∧
        (recurse (b.set i (some p)) m).1 ≤ 10) :
    ∀ (l : List Nat) (acc : Int × Int), (∀ i ∈ l, i < 9) →
      (acc = mmInit isMax ∨ mmQ b acc) →
      ((∃ i ∈ l, (b.getD i none).isNone = true) ∨ mmQ b acc) →
      mmQ b (l.foldl (minimaxFold c o recurse b isMax) acc) := by
  intro l
  induction l with
  | nil =>
    intro acc _ _ hthird
    rcases hthird with ⟨i, hi, _⟩ | hq
    · exact absurd hi (List.not_mem_nil i)
    · exact hq
  | cons a t ih =>
    intro acc hl hacc hthird
    have ha : a < 9 := hl a (List.mem_cons_self a t)
    have hstep := minimaxFold_step c o recurse b isMax hrec acc a ha
    have hl' : ∀ j ∈ t, j < 9 := fun j hj => hl j (List.mem_cons_of_mem a hj)
    rw [List.foldl_cons]
    have hacc' : minimaxFold c o recurse b isMax acc a = mmInit isMax ∨
        mmQ b (minimaxFold c o recurse b isMax acc a) := by
      rcases hstep.1 with heq | hq
      · rw [heq]; exact hacc
      · exact Or.inr hq
    have hQcarry : mmQ b acc → mmQ b (minimaxFold c o recurse b isMax acc a) := by
      intro hq
      rcases hstep.1 with heq | h
      · rw [heq]; exact hq
      · exact h
    rcases hthird with ⟨j, hj, hjemp⟩ | hq
    · rcases List.mem_cons.mp hj with heq | hjt
      · subst heq
        rcases hacc with hinit | hq
        · have h2 := hstep.2 hinit hjemp
          exact ih _ hl' (Or.inr h2) (Or.inr h2)
        · have h2 := hQcarry hq
          exact ih _ hl' (Or.inr h2) (Or.inr h2)
      · exact ih _ hl' hacc' (Or.inl ⟨j, hjt, hjemp⟩)
    · have h2 := hQcarry hq
      exact ih _ hl' (Or.inr h2) (Or.inr h2)

/-- A 9-cell board that is not full has an empty cell among the indices
`0..8`. -/
theorem exists_empty_of_not_full (b : TBoard) (hlen : b.length = 9)
    (h : boardFull b = false) :
    ∃ i ∈ List.range 9, (b.getD i none).isNone = true := by
  unfold boardFull at h
  rw [List.all_eq_false] at h
  obtain ⟨x, hx, hxf⟩ := h
  obtain ⟨n, hn, hget⟩ := List.mem_iff_getElem.mp hx
  refine ⟨n, List.mem_range.mpr (hlen ▸ hn), ?_⟩
  rw [List.getD_eq_getElem?_getD, List.getElem?_eq_getElem hn, hget]
  simpa [Option.isNone_iff_eq_none] using
    Option.not_isSome_iff_eq_none.mp (by simpa using hxf)

/-- Every score `minimax` produces on a 9-cell board lies in `[-10, 10]`. -/
theorem minimax_score_range (c o : TPlayer) :
    ∀ (fuel : Nat) (b : TBoard) (isMax : Bool), b.length = 9 →
      -10 ≤ (minimax c o fuel b isMax).1 ∧ (minimax c o fuel b isMax).1 ≤ 10 := by
  intro fuel
  induction fuel with
  | zero => intro b isMax _; constructor <;> norm_num [minimax]
  | succ n ih =>
    intro b isMax hlen
    simp only [minimax]
    by_cases h1 : calculateWinner b = some c
    · rw [if_pos h1]; constructor <;> norm_num
    rw [if_neg h1]
    by_cases h2 : calculateWinner b = some o
    · rw [if_pos h2]; constructor <;> norm_num
    rw [if_neg h2]
    by_cases h3 : boardFull b = true
    · rw [if_pos h3]; constructor <;> norm_num
    rw [if_neg h3]
    have hrec : ∀ (i : Nat) (p : TPlayer) (m : Bool),
        -10 ≤ (minimax c o n (b.set i (some p)) m).1 ∧
          (minimax c o n (b.set i (some p)) m).1 ≤ 10 := fun i p m =>
      ih (b.set i (some p)) m ((List.length_set b i (some p)).trans hlen)
    have h3' : boardFull b = false := by simpa using h3
    have hq := minimaxFold_foldl c o (minimax c o n) b isMax hrec (List.range 9)
      (mmInit isMax) (fun i hi => List.mem_range.mp hi) (Or.inl rfl)
      (Or.inl (exists_empty_of_not_full b hlen h3'))
    exact ⟨hq.1, hq.2.1⟩

/-- On a 9-cell board with no winner and an empty cell, `minimax` (with at
least one unit of fuel) returns a legal empty-cell move together with a
score in `[-10, 10]`. -/
theorem minimax_root_valid (c o : TPlayer) (fuel : Nat) (b : TBoard)
    (isMax : Bool) (hlen : b.length = 9) (hwin : calculateWinner b = none)
    (hfull : boardFull b = false) (hfuel : 1 ≤ fuel) :
    mmQ b (minimax c o fuel b isMax) := by
  obtain ⟨n, rfl⟩ : ∃ n, fuel = n + 1 := ⟨fuel - 1, by omega⟩
  simp only [minimax]
  rw [if_neg (by simp [hwin]), if_neg (by simp [hwin]), if_neg (by simp [hfull])]
  have hrec : ∀ (i : Nat) (p : TPlayer) (m : Bool),
      -10 ≤ (minimax c o n (b.set i (some p)) m).1 ∧
        (minimax c o n (b.set i (some p)) m).1 ≤ 10 := fun i p m =>
    minimax_score_range c o n (b.set i (some p)) m
      ((List.length_set b i (some p)).trans hlen)
  exact minimaxFold_foldl c o (minimax c o n) b isMax hrec (List.range 9)
    (mmInit isMax) (fun i hi => List.mem_range.mp hi) (Or.inl rfl)
    (Or.inl (exists_empty_of_not_full b hlen hfull))

/-- C10: on every 9-cell board with no winner and at least one empty cell,
`findBestMove` returns an index in `0..8` pointing at an empty cell (a
legal move); on the fully empty board it returns `4` (the center). -/
theorem findBestMove_legal :
    (∀ (b : TBoard) (comp : TPlayer), b.length = 9 →
      calculateWinner b = none → (∃ i, i < 9 ∧ b.getD i none = none) →
      0 ≤ findBestMove b comp ∧ findBestMove b comp < 9 ∧
        b.getD (findBestMove b comp).toNat none = none) ∧
    (∀ comp : TPlayer, findBestMove (List.replicate 9 none) comp = 4) := by
  constructor
  · intro b comp hlen hwin hex
    by_cases hall : b.all (fun cell => cell = none) = true
    · have h4 : findBestMove b comp = 4 := by
        unfold findBestMove
        rw [if_pos hall]
      rw [h4]
      refine ⟨by norm_num, by norm_num, ?_⟩
      have h45 : (4 : Nat) < b.length := by omega
      have hmem : b.getD 4 none ∈ b := by
        rw [List.getD_eq_getElem?_getD, List.getElem?_eq_getElem h45]
        exact List.mem_iff_getElem.mpr ⟨4, h45, rfl⟩
      have hcell := List.all_eq_true.mp hall _ hmem
      show b.getD (Int.toNat 4) none = none
      simpa using hcell
    · have hfull : boardFull b = false := by
        obtain ⟨i, hi9, hinone⟩ := hex
        unfold boardFull
        rw [List.all_eq_false]
        have hilen : i < b.length := by omega
        refine ⟨b.getD i none, ?_, ?_⟩
        · rw [List.getD_eq_getElem?_getD, List.getElem?_eq_getElem hilen]
          exact List.mem_iff_getElem.mpr ⟨i, hilen, rfl⟩
        · rw [hinone]
          simp
      have hvalid := minimax_root_valid comp
        (if comp = TPlayer.X then TPlayer.O else TPlayer.X) 9 b true hlen hwin
        hfull (by norm_num)
      obtain ⟨hs1, hs2, hm0, hm9, hmnone⟩ := hvalid
      have hne : (minimax comp (if comp = TPlayer.X then TPlayer.O else TPlayer.X)
          9 b true).2 ≠ -1 := by omega
      have hfb : findBestMove b comp =
          (minimax comp (if comp = TPlayer.X then TPlayer.O else TPlayer.X)
            9 b true).2 := by
        unfold findBestMove
        rw [if_neg hall]
        dsimp only
        rw [if_neg hne]
      rw [hfb]
      exact ⟨hm0, hm9, hmnone⟩
  · intro comp
    rfl

/-- C10 (witness): on a concrete no-winner board with a single empty cell
(index 8), `findBestMove` returns a legal empty cell, and the empty board
yields the center. -/
theorem findBestMove_legal_witness :
    (0 ≤ findBestMove [some TPlayer.X, some TPlayer.O, some TPlayer.X,
        some TPlayer.O, some TPlayer.X, some TPlayer.O,
        some TPlayer.O, some TPlayer.X, none] TPlayer.O ∧
      findBestMove [some TPlayer.X, some TPlayer.O, some TPlayer.X,
        some TPlayer.O, some TPlayer.X, some TPlayer.O,
        some TPlayer.O, some TPlayer.X, none] TPlayer.O < 9 ∧
      [some TPlayer.X, some TPlayer.O, some TPlayer.X,
        some TPlayer.O, some TPlayer.X, some TPlayer.O,
        some TPlayer.O, some TPlayer.X, none].getD
        (findBestMove [some TPlayer.X, some TPlayer.O, some TPlayer.X,
          some TPlayer.O, some TPlayer.X, some TPlayer.O,
          some TPlayer.O, some TPlayer.X, none] TPlayer.O).toNat none = none) ∧
    findBestMove (List.replicate 9 none) TPlayer.O = 4 := by
  refine ⟨findBestMove_legal.1 _ TPlayer.O rfl (by decide) ⟨8, by norm_num, rfl⟩,
    findBestMove_legal.2 TPlayer.O⟩

end Arcade
